import Mathlib

/-!
Shallow embedding of the task CRUD service in `src/server/app.js`
(Express + MongoDB). The five route handlers and the document
transformer are translated directly from the source; the MongoDB
collection is modelled as a list of documents plus a fresh-identifier
counter, and JavaScript runtime values (with their truthiness and the
`||` operator) are modelled explicitly so that defaulting behaviour is
faithful.
-/

set_option autoImplicit false

namespace TaskManager

/-- Model of a JavaScript runtime value as it can appear in a JSON
request body or a stored document field: `undefined` (also the result of
destructuring an absent field), `null`, booleans, numbers and strings. -/
inductive JSValue where
  | undefined
  | null
  | bool (b : Bool)
  | num (n : Int)
  | str (s : String)
deriving DecidableEq

/-- JavaScript truthiness: `undefined`, `null`, `false`, `0` and `""`
are falsy, everything else is truthy. -/
def JSValue.truthy : JSValue → Bool
  | .undefined => false
  | .null => false
  | .bool b => b
  | .num n => n != 0
  | .str s => s != ""

/-- The JavaScript `||` operator: returns the left operand when it is
truthy, the right operand otherwise. -/
def jsOr (a b : JSValue) : JSValue :=
  if a.truthy then a else b

/-- MongoDB ObjectId, modelled as a natural number (the 12-byte value);
its external string form is 24 lowercase hex characters. -/
abbrev ObjectId := Nat

/-- Lowercase hexadecimal digit character for a value below 16. -/
def hexChar (n : Nat) : Char :=
  if n < 10 then Char.ofNat (48 + n) else Char.ofNat (87 + n)

/-- Is the character a hexadecimal digit (either case)? -/
def isHexDigit (c : Char) : Bool :=
  (('0' ≤ c) && (c ≤ '9')) || (('a' ≤ c) && (c ≤ 'f')) || (('A' ≤ c) && (c ≤ 'F'))

/-- Numeric value of a hexadecimal digit character. -/
def hexVal (c : Char) : Nat :=
  if ('0' ≤ c) && (c ≤ '9') then c.toNat - 48
  else if ('a' ≤ c) && (c ≤ 'f') then c.toNat - 87
  else c.toNat - 55

/-- The `k` low-order hex digits of `n`, most significant first
(left-padded with zeros). -/
def toHexDigits (n : Nat) : Nat → List Char
  | 0 => []
  | k + 1 => toHexDigits (n / 16) k ++ [hexChar (n % 16)]

/-- Read a list of hex digit characters as a natural number. -/
def parseHex (cs : List Char) : Nat :=
  cs.foldl (fun a c => a * 16 + hexVal c) 0

/-- Model of MongoDB `ObjectId.toString()`: the 24-character lowercase
hex string form of the identifier. -/
def oidToString (o : ObjectId) : String :=
  ⟨toHexDigits o 24⟩

/-- Model of the MongoDB `new ObjectId(id)` constructor applied to a
string: succeeds on a 24-character hex string, otherwise throws a
`BSONError` with the driver's message. -/
def parseObjectId (s : String) : Except String ObjectId :=
  if s.length == 24 && s.data.all isHexDigit then
    Except.ok (parseHex s.data)
  else
    Except.error "input must be a 24 character hex string, 12 byte Uint8Array, or an integer"

/-- A stored task document: the shape written by the create handler.
`_id` is assigned by the storage engine; the body-derived fields are
JavaScript values; the timestamps are instants modelled as naturals. -/
structure TaskDoc where
  _id : ObjectId
  title : JSValue
  description : JSValue
  complete : JSValue
  createdAt : Nat
  updatedAt : Nat
deriving DecidableEq

/-- The client-facing shape produced by `transformTaskDocument`: every
field of the stored document (including `_id`) plus the added string
`id` field. -/
structure TransformedTask where
  _id : ObjectId
  title : JSValue
  description : JSValue
  complete : JSValue
  createdAt : Nat
  updatedAt : Nat
  id : String
deriving DecidableEq

/-- Translation of `transformTaskDocument` in `src/server/app.js`: a
falsy (`null`/`undefined`) document maps to `null`; otherwise a shallow
copy of the document with the added `id` field equal to
`doc._id.toString()`. -/
def transformTaskDocument : Option TaskDoc → Option TransformedTask
  | none => none
  | some doc =>
      some { _id := doc._id, title := doc.title, description := doc.description,
             complete := doc.complete, createdAt := doc.createdAt,
             updatedAt := doc.updatedAt, id := oidToString doc._id }

/-- A parsed JSON request body for create/update: destructuring
`req.body` yields `undefined` for any absent field. -/
structure TaskBody where
  title : JSValue
  description : JSValue
  complete : JSValue
deriving DecidableEq

/-- The `tasks` collection of the `nodetask` database: the stored
documents in the engine's natural order, plus the source of the next
fresh identifier the engine will assign. -/
structure DB where
  docs : List TaskDoc
  nextId : ObjectId
deriving DecidableEq

/-- A JSON response body: the shapes sent by the five handlers. -/
inductive ResBody where
  | errorMsg (msg : String)
  | message (msg : String)
  | taskJson (t : Option TransformedTask)
  | taskListJson (ts : List (Option TransformedTask))
  | rawDoc (d : Option TaskDoc)
deriving DecidableEq

/-- An HTTP response: status code and JSON body. -/
structure HttpResponse where
  status : Nat
  body : ResBody
deriving DecidableEq

/-- Model of `taskCollection.findOne({_id: oid})`: the first stored
document with the given identifier. -/
def findOne (docs : List TaskDoc) (oid : ObjectId) : Option TaskDoc :=
  docs.find? (fun d => d._id == oid)

/-- Model of `taskCollection.find(query).toArray()` where `query` is
either `{}` (no filter) or `{complete: b}` (BSON equality of the
`complete` field with the boolean `b`). -/
def findMany (docs : List TaskDoc) (query : Option Bool) : List TaskDoc :=
  match query with
  | none => docs
  | some b => docs.filter (fun d => d.complete == JSValue.bool b)

/-- The `$set` clause of the update handler: overwrite `title`,
`description` and `complete` with the body's values (absent fields are
`undefined`) and refresh `updatedAt`. -/
def applySet (body : TaskBody) (now : Nat) (d : TaskDoc) : TaskDoc :=
  { d with title := body.title, description := body.description,
           complete := body.complete, updatedAt := now }

/-- Model of `taskCollection.findOneAndUpdate({_id: oid}, {$set: ...},
{returnDocument: "after"})`: update the first matching document and
return it post-update, or `null` when none matches. -/
def findOneAndUpdate (docs : List TaskDoc) (oid : ObjectId) (body : TaskBody) (now : Nat) :
    Option TaskDoc × List TaskDoc :=
  match docs with
  | [] => (none, [])
  | d :: rest =>
    if d._id == oid then
      (some (applySet body now d), applySet body now d :: rest)
    else
      let r := findOneAndUpdate rest oid body now
      (r.1, d :: r.2)

/-- Model of `taskCollection.deleteOne({_id: oid})`: remove the first
matching document and report the number of documents deleted. -/
def deleteOne (docs : List TaskDoc) (oid : ObjectId) : Nat × List TaskDoc :=
  match docs with
  | [] => (0, [])
  | d :: rest =>
    if d._id == oid then (1, rest)
    else
      let r := deleteOne rest oid
      (r.1, d :: r.2)

/-- Translation of `app.get("/api/tasks")`: build the filter from the
optional `complete` query parameter (`"true"` maps to boolean true, any
other present value to boolean false, absent means no filter), query the
collection, transform every returned document. -/
def getTasks (db : DB) (complete : Option String) : HttpResponse :=
  let query : Option Bool := complete.map (fun s => s == "true")
  let tasks := findMany db.docs query
  ⟨200, .taskListJson (tasks.map (fun task => transformTaskDocument (some task)))⟩

/-- Translation of `app.get("/api/tasks/:id")`: parse the identifier (a
parse failure is caught and answered with 500 and the error message),
point-lookup, 404 with the literal not-found body when absent, otherwise
200 with the transformed document. -/
def getTaskById (db : DB) (id : String) : HttpResponse :=
  match parseObjectId id with
  | .error e => ⟨500, .errorMsg e⟩
  | .ok objectId =>
    match findOne db.docs objectId with
    | none => ⟨404, .errorMsg ("Task with ID " ++ id ++ " not found")⟩
    | some task => ⟨200, .taskJson (transformTaskDocument (some task))⟩

/-- Translation of `app.post("/api/tasks")`: reject a falsy `title` with
400, otherwise insert the document with `||`-defaulted `description` and
`complete` and both timestamps set to the current time, re-read the
inserted document by its fresh identifier and answer 201 with the raw
re-read document. -/
def postTasks (db : DB) (now : Nat) (body : TaskBody) : HttpResponse × DB :=
  if !body.title.truthy then
    (⟨400, .errorMsg "Title is required"⟩, db)
  else
    let task : TaskDoc :=
      { _id := db.nextId, title := body.title,
        description := jsOr body.description (.str ""),
        complete := jsOr body.complete (.bool false),
        createdAt := now, updatedAt := now }
    let db' : DB := ⟨db.docs ++ [task], db.nextId + 1⟩
    let insertedTask := findOne db'.docs task._id
    (⟨201, .rawDoc insertedTask⟩, db')

/-- Translation of `app.put("/api/tasks/:id")`: parse the identifier
(failure caught as 500), `findOneAndUpdate` with a `$set` of the three
body fields and a refreshed `updatedAt`, 404 when nothing matched,
otherwise 200 with the transformed post-update document. -/
def putTaskById (db : DB) (now : Nat) (id : String) (body : TaskBody) : HttpResponse × DB :=
  match parseObjectId id with
  | .error e => (⟨500, .errorMsg e⟩, db)
  | .ok objectId =>
    let r := findOneAndUpdate db.docs objectId body now
    let db' : DB := ⟨r.2, db.nextId⟩
    match r.1 with
    | none => (⟨404, .errorMsg ("Task with ID " ++ id ++ " not found")⟩, db')
    | some updatedTask =>
      (⟨200, .taskJson (transformTaskDocument (some updatedTask))⟩, db')

/-- Translation of `app.delete("/api/tasks/:id")`: parse the identifier
(failure caught as 500), `deleteOne`, 404 when zero documents were
deleted, otherwise 200 with the literal success message. -/
def deleteTaskById (db : DB) (id : String) : HttpResponse × DB :=
  match parseObjectId id with
  | .error e => (⟨500, .errorMsg e⟩, db)
  | .ok objectId =>
    let r := deleteOne db.docs objectId
    let db' : DB := ⟨r.2, db.nextId⟩
    if r.1 == 0 then
      (⟨404, .errorMsg ("Task with ID " ++ id ++ " not found")⟩, db')
    else
      (⟨200, .message "Task deleted successfully"⟩, db')

/-! Helper lemmas about the identifier string form and the collection
operations. -/

theorem toHexDigits_length (k : Nat) : ∀ n : Nat, (toHexDigits n k).length = k := by
  induction k with
  | zero => intro n; rfl
  | succ k ih => intro n; simp [toHexDigits, ih]

theorem hexVal_hexChar : ∀ m : Nat, m < 16 → hexVal (hexChar m) = m := by decide

theorem isHexDigit_hexChar : ∀ m : Nat, m < 16 → isHexDigit (hexChar m) = true := by decide

theorem toHexDigits_all_hex (k : Nat) :
    ∀ n : Nat, (toHexDigits n k).all isHexDigit = true := by
  induction k with
  | zero => intro n; rfl
  | succ k ih =>
    intro n
    have h16 : n % 16 < 16 := Nat.mod_lt _ (by norm_num)
    simp [toHexDigits, ih, isHexDigit_hexChar _ h16]

theorem parseHex_append_singleton (cs : List Char) (c : Char) :
    parseHex (cs ++ [c]) = parseHex cs * 16 + hexVal c := by
  simp [parseHex, List.foldl_append]

theorem parseHex_toHexDigits (k : Nat) :
    ∀ n : Nat, n < 16 ^ k → parseHex (toHexDigits n k) = n := by
  induction k with
  | zero =>
    intro n h
    have : n = 0 := by simpa using Nat.lt_one_iff.mp (by simpa using h)
    simp [this, toHexDigits, parseHex]
  | succ k ih =>
    intro n h
    have h16 : n % 16 < 16 := Nat.mod_lt _ (by norm_num)
    have hdiv : n / 16 < 16 ^ k := by
      refine Nat.div_lt_of_lt_mul ?_
      rw [pow_succ] at h
      omega
    rw [toHexDigits, parseHex_append_singleton, ih _ hdiv, hexVal_hexChar _ h16]
    omega

theorem parseObjectId_oidToString (o : ObjectId) (h : o < 16 ^ 24) :
    parseObjectId (oidToString o) = Except.ok o := by
  have hlen : (oidToString o).length = 24 := by
    simp [oidToString, String.length, toHexDigits_length]
  have hhex : (oidToString o).data.all isHexDigit = true := by
    simpa [oidToString] using toHexDigits_all_hex 24 o
  simp only [parseObjectId, hlen, hhex, Bool.and_true, beq_self_eq_true, if_true]
  exact congrArg Except.ok (parseHex_toHexDigits 24 o h)

theorem applySet_id (body : TaskBody) (now : Nat) (d : TaskDoc) :
    (applySet body now d)._id = d._id := rfl

theorem findOne_append_fresh (docs : List TaskDoc) (t : TaskDoc)
    (h : findOne docs t._id = none) : findOne (docs ++ [t]) t._id = some t := by
  simp only [findOne] at h ⊢
  simp [List.find?_append, h]

/-- The document built and inserted by the create handler (the local
`task` object of `app.post("/api/tasks")`). -/
def newTaskDoc (db : DB) (now : Nat) (body : TaskBody) : TaskDoc :=
  { _id := db.nextId, title := body.title,
    description := jsOr body.description (JSValue.str ""),
    complete := jsOr body.complete (JSValue.bool false),
    createdAt := now, updatedAt := now }

theorem newTaskDoc_id (db : DB) (now : Nat) (body : TaskBody) :
    (newTaskDoc db now body)._id = db.nextId := rfl

theorem postTasks_eq_of_truthy (db : DB) (now : Nat) (body : TaskBody)
    (htitle : body.title.truthy = true) :
    postTasks db now body =
      (⟨201, ResBody.rawDoc (findOne (db.docs ++ [newTaskDoc db now body]) db.nextId)⟩,
       ⟨db.docs ++ [newTaskDoc db now body], db.nextId + 1⟩) := by
  simp [postTasks, htitle, newTaskDoc]

theorem findOneAndUpdate_not_found {docs : List TaskDoc} {oid : ObjectId}
    (body : TaskBody) (now : Nat) (h : findOne docs oid = none) :
    findOneAndUpdate docs oid body now = (none, docs) := by
  induction docs with
  | nil => rfl
  | cons d rest ih =>
    simp only [findOne, List.find?] at h
    cases hd : (d._id == oid) with
    | true => simp [hd] at h
    | false =>
      rw [hd] at h
      simp [findOneAndUpdate, hd, ih h]

theorem findOneAndUpdate_found {docs : List TaskDoc} {oid : ObjectId} {d : TaskDoc}
    (body : TaskBody) (now : Nat) (h : findOne docs oid = some d) :
    (findOneAndUpdate docs oid body now).1 = some (applySet body now d) ∧
    findOne (findOneAndUpdate docs oid body now).2 oid = some (applySet body now d) := by
  induction docs with
  | nil => simp [findOne] at h
  | cons d0 rest ih =>
    simp only [findOne, List.find?] at h
    cases hd : (d0._id == oid) with
    | true =>
      rw [hd] at h
      have hde : d0 = d := by simpa using h
      subst hde
      refine ⟨by simp [findOneAndUpdate, hd], ?_⟩
      have hid : ((applySet body now d0)._id == oid) = true := by
        rw [applySet_id]; exact hd
      simp [findOneAndUpdate, hd, findOne, List.find?, hid]
    | false =>
      rw [hd] at h
      obtain ⟨ih1, ih2⟩ := ih h
      refine ⟨by simp [findOneAndUpdate, hd, ih1], ?_⟩
      simpa [findOneAndUpdate, hd, findOne, List.find?] using ih2

theorem deleteOne_not_found {docs : List TaskDoc} {oid : ObjectId}
    (h : findOne docs oid = none) : deleteOne docs oid = (0, docs) := by
  induction docs with
  | nil => rfl
  | cons d rest ih =>
    simp only [findOne, List.find?] at h
    cases hd : (d._id == oid) with
    | true => simp [hd] at h
    | false =>
      rw [hd] at h
      simp [deleteOne, hd, ih h]

theorem deleteOne_found {docs : List TaskDoc} {oid : ObjectId} {d : TaskDoc}
    (h : findOne docs oid = some d) : (deleteOne docs oid).1 = 1 := by
  induction docs with
  | nil => simp [findOne] at h
  | cons d0 rest ih =>
    simp only [findOne, List.find?] at h
    cases hd : (d0._id == oid) with
    | true => simp [deleteOne, hd]
    | false =>
      rw [hd] at h
      simp [deleteOne, hd, ih h]

theorem deleteOne_removes_last {docs : List TaskDoc} {oid : ObjectId}
    (h : docs.countP (fun d => d._id == oid) ≤ 1) :
    findOne (deleteOne docs oid).2 oid = none := by
  induction docs with
  | nil => rfl
  | cons d rest ih =>
    cases hd : (d._id == oid) with
    | true =>
      rw [List.countP_cons_of_pos _ _ (by simpa using hd)] at h
      have hzero : rest.countP (fun d => d._id == oid) = 0 := by omega
      have : findOne rest oid = none := by
        simp only [findOne, List.find?_eq_none]
        intro x hx
        simpa using List.countP_eq_zero.mp hzero x hx
      simp [deleteOne, hd, this]
    | false =>
      rw [List.countP_cons_of_neg _ _ (by simpa using hd)] at h
      simpa [deleteOne, hd, findOne, List.find?] using ih h

/-! Concrete store used by the witness theorems. -/

/-- A concrete stored document. -/
def sampleDoc : TaskDoc :=
  { _id := 5, title := JSValue.str "Buy milk", description := JSValue.str "",
    complete := JSValue.bool false, createdAt := 10, updatedAt := 10 }

/-- A concrete store holding `sampleDoc`, with 6 as the next fresh
identifier. -/
def sampleDB : DB := ⟨[sampleDoc], 6⟩

/-- C5: the document transformer maps `null` to `null` and any stored
document to a shallow copy carrying every field of the input unchanged
(including the internal `_id`, kept alongside the new field) plus an
added `id` equal to the string form of the storage identifier; it is a
total function, so it never fails. -/
theorem transformTaskDocument_spec :
    transformTaskDocument none = none ∧
    ∀ d : TaskDoc, ∃ t : TransformedTask,
      transformTaskDocument (some d) = some t ∧ t.id = oidToString d._id ∧
      t._id = d._id ∧ t.title = d.title ∧ t.description = d.description ∧
      t.complete = d.complete ∧ t.createdAt = d.createdAt ∧ t.updatedAt = d.updatedAt :=
  ⟨rfl, fun d => ⟨_, rfl, rfl, rfl, rfl, rfl, rfl, rfl, rfl⟩⟩

/-- C6: a create request whose `title` is missing or falsy is answered
with HTTP 400 and body `{error: "Title is required"}`, and the store is
left completely unchanged. -/
theorem postTasks_missing_title (db : DB) (now : Nat) (body : TaskBody)
    (htitle : body.title.truthy = false) :
    postTasks db now body = (⟨400, ResBody.errorMsg "Title is required"⟩, db) := by
  simp [postTasks, htitle]

/-- Witness for C6 at a concrete store and a body with `title` absent. -/
theorem postTasks_missing_title_witness :
    postTasks sampleDB 11 ⟨JSValue.undefined, JSValue.undefined, JSValue.undefined⟩ =
      (⟨400, ResBody.errorMsg "Title is required"⟩, sampleDB) :=
  postTasks_missing_title sampleDB 11 _ rfl

/-- C3: a get-by-identifier request is answered 500 carrying the parse
error message when the identifier fails to parse as an ObjectId, 404
with body `{error: "Task with ID <id> not found"}` when it parses but
no document matches, and 200 with the transformed task when a document
matches. -/
theorem getTaskById_cases (db : DB) (id : String) :
    (∀ e, parseObjectId id = Except.error e →
      getTaskById db id = ⟨500, ResBody.errorMsg e⟩) ∧
    (∀ oid, parseObjectId id = Except.ok oid →
      (findOne db.docs oid = none →
        getTaskById db id = ⟨404, ResBody.errorMsg ("Task with ID " ++ id ++ " not found")⟩) ∧
      (∀ d, findOne db.docs oid = some d →
        getTaskById db id = ⟨200, ResBody.taskJson (transformTaskDocument (some d))⟩)) := by
  refine ⟨fun e he => by simp [getTaskById, he],
    fun oid ho => ⟨fun hn => by simp [getTaskById, ho, hn],
      fun d hd => by simp [getTaskById, ho, hd]⟩⟩

/-- Witness for C3 at a malformed identifier: 500 with the driver's
parse error message, not 400 and not 404. -/
theorem getTaskById_cases_witness :
    getTaskById sampleDB "not-a-valid-id" =
      ⟨500, ResBody.errorMsg
        "input must be a 24 character hex string, 12 byte Uint8Array, or an integer"⟩ :=
  (getTaskById_cases sampleDB "not-a-valid-id").1
    "input must be a 24 character hex string, 12 byte Uint8Array, or an integer" rfl

/-- C4: the list request returns exactly the transformed tasks whose
`complete` field is the boolean true when the query parameter is the
literal string `"true"`, exactly those whose `complete` is the boolean
false when the parameter is present with any other value, and every
stored task when the parameter is absent. -/
theorem getTasks_filter (db : DB) :
    getTasks db (some "true") =
      ⟨200, ResBody.taskListJson
        ((db.docs.filter (fun d => d.complete == JSValue.bool true)).map
          (fun task => transformTaskDocument (some task)))⟩ ∧
    (∀ s, s ≠ "true" → getTasks db (some s) =
      ⟨200, ResBody.taskListJson
        ((db.docs.filter (fun d => d.complete == JSValue.bool false)).map
          (fun task => transformTaskDocument (some task)))⟩) ∧
    getTasks db none =
      ⟨200, ResBody.taskListJson
        (db.docs.map (fun task => transformTaskDocument (some task)))⟩ := by
  refine ⟨by simp [getTasks, findMany], fun s hs => ?_, by simp [getTasks, findMany]⟩
  have : (s == "true") = false := by simpa using hs
  simp [getTasks, findMany, this]

/-- Witness for C4 at the parameter value `"false"`: only the tasks
with boolean-false `complete` are returned. -/
theorem getTasks_filter_witness :
    getTasks sampleDB (some "false") =
      ⟨200, ResBody.taskListJson
        ((sampleDB.docs.filter (fun d => d.complete == JSValue.bool false)).map
          (fun task => transformTaskDocument (some task)))⟩ :=
  (getTasks_filter sampleDB).2.1 "false" (by decide)

/-- C1: an update on an existing task overwrites the stored `title`,
`description` and `complete` with exactly the request body's values — a
full replace, not a partial merge: an omitted field (destructured to
`undefined`) is written as `undefined` rather than preserved, and in
particular omitting `complete` leaves the stored task's `complete`
undefined. -/
theorem putTaskById_full_replace (db : DB) (now : Nat) (id : String) (body : TaskBody)
    (oid : ObjectId) (hparse : parseObjectId id = Except.ok oid)
    (d : TaskDoc) (hfound : findOne db.docs oid = some d) :
    ∃ d', findOne (putTaskById db now id body).2.docs oid = some d' ∧
      d'.title = body.title ∧ d'.description = body.description ∧
      d'.complete = body.complete ∧
      (body.complete = JSValue.undefined → d'.complete = JSValue.undefined) := by
  obtain ⟨h1, h2⟩ := findOneAndUpdate_found body now hfound
  refine ⟨applySet body now d, ?_, rfl, rfl, rfl, fun hc => hc ▸ rfl⟩
  rcases hr : findOneAndUpdate db.docs oid body now with ⟨r1, r2⟩
  rw [hr] at h1 h2
  simp only at h1
  subst h1
  simp only [putTaskById, hparse, hr]
  exact h2

/-- Witness for C1: updating the sample task with a body that omits
`description` and `complete` stores `undefined` for both. -/
theorem putTaskById_full_replace_witness :
    ∃ d', findOne (putTaskById sampleDB 11 (oidToString 5)
        ⟨JSValue.str "New", JSValue.undefined, JSValue.undefined⟩).2.docs 5 = some d' ∧
      d'.title = JSValue.str "New" ∧ d'.description = JSValue.undefined ∧
      d'.complete = JSValue.undefined ∧
      (JSValue.undefined = JSValue.undefined → d'.complete = JSValue.undefined) :=
  putTaskById_full_replace sampleDB 11 (oidToString 5) _ 5 rfl sampleDoc rfl

/-- C9: an update on an existing task leaves the stored document's
identifier and `createdAt` untouched and refreshes `updatedAt` to the
current time. -/
theorem putTaskById_frame (db : DB) (now : Nat) (id : String) (body : TaskBody)
    (oid : ObjectId) (hparse : parseObjectId id = Except.ok oid)
    (d : TaskDoc) (hfound : findOne db.docs oid = some d) :
    ∃ d', findOne (putTaskById db now id body).2.docs oid = some d' ∧
      d'._id = d._id ∧ d'.createdAt = d.createdAt ∧ d'.updatedAt = now := by
  obtain ⟨h1, h2⟩ := findOneAndUpdate_found body now hfound
  refine ⟨applySet body now d, ?_, rfl, rfl, rfl⟩
  rcases hr : findOneAndUpdate db.docs oid body now with ⟨r1, r2⟩
  rw [hr] at h1 h2
  simp only at h1
  subst h1
  simp only [putTaskById, hparse, hr]
  exact h2

/-- Witness for C9 at the sample store. -/
theorem putTaskById_frame_witness :
    ∃ d', findOne (putTaskById sampleDB 11 (oidToString 5)
        ⟨JSValue.str "X", JSValue.str "d", JSValue.bool true⟩).2.docs 5 = some d' ∧
      d'._id = sampleDoc._id ∧ d'.createdAt = sampleDoc.createdAt ∧ d'.updatedAt = 11 :=
  putTaskById_frame sampleDB 11 (oidToString 5) _ 5 rfl sampleDoc rfl

/-- C2: a create request with a truthy `title` that omits `description`
and `complete` inserts a document with `description = ""`,
`complete = false` and both timestamps set to the current time, answers
201 with it, and the created task is retrievable through the
get-by-identifier operation using the string form of the identifier
assigned by the storage engine. -/
theorem postTasks_create_then_get (db : DB) (now : Nat) (body : TaskBody)
    (htitle : body.title.truthy = true)
    (hdesc : body.description = JSValue.undefined)
    (hcomp : body.complete = JSValue.undefined)
    (hfresh : findOne db.docs db.nextId = none)
    (hbound : db.nextId < 16 ^ 24) :
    ∃ t : TaskDoc,
      (postTasks db now body).1 = ⟨201, ResBody.rawDoc (some t)⟩ ∧
      t.description = JSValue.str "" ∧ t.complete = JSValue.bool false ∧
      t.createdAt = now ∧ t.updatedAt = now ∧
      getTaskById (postTasks db now body).2 (oidToString t._id) =
        ⟨200, ResBody.taskJson (transformTaskDocument (some t))⟩ := by
  have hfind : findOne (db.docs ++ [newTaskDoc db now body]) db.nextId =
      some (newTaskDoc db now body) :=
    findOne_append_fresh db.docs (newTaskDoc db now body) hfresh
  refine ⟨newTaskDoc db now body, ?_, ?_, ?_, rfl, rfl, ?_⟩
  · rw [postTasks_eq_of_truthy db now body htitle, hfind]
  · simp [newTaskDoc, hdesc, jsOr, JSValue.truthy]
  · simp [newTaskDoc, hcomp, jsOr, JSValue.truthy]
  · rw [postTasks_eq_of_truthy db now body htitle]
    simp [getTaskById, newTaskDoc_id, parseObjectId_oidToString _ hbound, hfind]

/-- Witness for C2 at the sample store. -/
theorem postTasks_create_then_get_witness :
    ∃ t : TaskDoc,
      (postTasks sampleDB 11
        ⟨JSValue.str "Buy milk", JSValue.undefined, JSValue.undefined⟩).1 =
          ⟨201, ResBody.rawDoc (some t)⟩ ∧
      t.description = JSValue.str "" ∧ t.complete = JSValue.bool false ∧
      t.createdAt = 11 ∧ t.updatedAt = 11 ∧
      getTaskById (postTasks sampleDB 11
          ⟨JSValue.str "Buy milk", JSValue.undefined, JSValue.undefined⟩).2
          (oidToString t._id) =
        ⟨200, ResBody.taskJson (transformTaskDocument (some t))⟩ :=
  postTasks_create_then_get sampleDB 11 _ rfl rfl rfl rfl (by decide)

/-- C8: a successful create answers HTTP 201 whose body is the raw
stored document re-read from the store under the freshly assigned
identifier — it is sent through `ResBody.rawDoc`, carrying a `TaskDoc`
with the native `_id` field and no added string `id` field, not through
the transformed shape used by the other operations. -/
theorem postTasks_raw_response (db : DB) (now : Nat) (body : TaskBody)
    (htitle : body.title.truthy = true)
    (hfresh : findOne db.docs db.nextId = none) :
    ∃ t : TaskDoc, t._id = db.nextId ∧
      (postTasks db now body).2.docs = db.docs ++ [t] ∧
      findOne (postTasks db now body).2.docs db.nextId = some t ∧
      (postTasks db now body).1 = ⟨201, ResBody.rawDoc (some t)⟩ := by
  have hfind : findOne (db.docs ++ [newTaskDoc db now body]) db.nextId =
      some (newTaskDoc db now body) :=
    findOne_append_fresh db.docs (newTaskDoc db now body) hfresh
  refine ⟨newTaskDoc db now body, rfl, ?_, ?_, ?_⟩
  · rw [postTasks_eq_of_truthy db now body htitle]
  · rw [postTasks_eq_of_truthy db now body htitle]
    exact hfind
  · rw [postTasks_eq_of_truthy db now body htitle, hfind]

/-- Witness for C8 at the sample store. -/
theorem postTasks_raw_response_witness :
    ∃ t : TaskDoc, t._id = sampleDB.nextId ∧
      (postTasks sampleDB 11
        ⟨JSValue.str "task", JSValue.str "d", JSValue.bool true⟩).2.docs =
          sampleDB.docs ++ [t] ∧
      findOne (postTasks sampleDB 11
        ⟨JSValue.str "task", JSValue.str "d", JSValue.bool true⟩).2.docs
          sampleDB.nextId = some t ∧
      (postTasks sampleDB 11
        ⟨JSValue.str "task", JSValue.str "d", JSValue.bool true⟩).1 =
          ⟨201, ResBody.rawDoc (some t)⟩ :=
  postTasks_raw_response sampleDB 11 _ rfl rfl

/-- C10: the create operation defaults every falsy supplied value, not
only absent ones — a falsy `description` (`undefined`, `null`, `0`,
`""`) is stored as `""` and a falsy `complete` is stored as `false`,
via the `||` operator — while a truthy supplied `complete`, including a
non-boolean such as a non-empty string, is stored unchanged without
coercion to boolean. -/
theorem postTasks_falsy_defaults (db : DB) (now : Nat) (body : TaskBody)
    (htitle : body.title.truthy = true) :
    ∃ t : TaskDoc, (postTasks db now body).2.docs = db.docs ++ [t] ∧
      (body.description.truthy = false → t.description = JSValue.str "") ∧
      (body.complete.truthy = false → t.complete = JSValue.bool false) ∧
      (body.complete.truthy = true → t.complete = body.complete) := by
  refine ⟨newTaskDoc db now body, ?_, fun hd => ?_, fun hc => ?_, fun hc => ?_⟩
  · rw [postTasks_eq_of_truthy db now body htitle]
  · simp [newTaskDoc, jsOr, hd]
  · simp [newTaskDoc, jsOr, hc]
  · simp [newTaskDoc, jsOr, hc]

/-- Witness for C10: a supplied `description` of `0` is stored as `""`
while a supplied `complete` of `"yes"` is stored as the string `"yes"`,
not a boolean. -/
theorem postTasks_falsy_defaults_witness :
    ∃ t : TaskDoc,
      (postTasks sampleDB 11
        ⟨JSValue.str "t", JSValue.num 0, JSValue.str "yes"⟩).2.docs =
          sampleDB.docs ++ [t] ∧
      ((JSValue.num 0).truthy = false → t.description = JSValue.str "") ∧
      ((JSValue.str "yes").truthy = false → t.complete = JSValue.bool false) ∧
      ((JSValue.str "yes").truthy = true → t.complete = JSValue.str "yes") :=
  postTasks_falsy_defaults sampleDB 11 _ rfl

/-- C7: a delete request with a parseable identifier answers 200 with
body `{message: "Task deleted successfully"}` when a document was
deleted, 404 with the standard not-found body (leaving the store
unchanged) when zero documents were deleted, and deleting the same
identifier again after a delete — the already-deleted case — again
yields 404, never a storage error. -/
theorem deleteTaskById_cases (db : DB) (id : String) (oid : ObjectId)
    (hparse : parseObjectId id = Except.ok oid) :
    (∀ d, findOne db.docs oid = some d →
      (deleteTaskById db id).1 = ⟨200, ResBody.message "Task deleted successfully"⟩) ∧
    (findOne db.docs oid = none →
      deleteTaskById db id = (⟨404, ResBody.errorMsg ("Task with ID " ++ id ++ " not found")⟩, db)) ∧
    (db.docs.countP (fun d => d._id == oid) ≤ 1 →
      (deleteTaskById (deleteTaskById db id).2 id).1 =
        ⟨404, ResBody.errorMsg ("Task with ID " ++ id ++ " not found")⟩) := by
  refine ⟨fun d hd => ?_, fun hn => ?_, fun hcount => ?_⟩
  · have h1 := deleteOne_found hd
    simp [deleteTaskById, hparse, h1]
  · rcases db with ⟨docs, nid⟩
    simp [deleteTaskById, hparse, deleteOne_not_found hn]
  · have hsnd : (deleteTaskById db id).2 = ⟨(deleteOne db.docs oid).2, db.nextId⟩ := by
      simp only [deleteTaskById, hparse]
      split <;> rfl
    have hnone : findOne (deleteOne db.docs oid).2 oid = none :=
      deleteOne_removes_last hcount
    rw [hsnd]
    simp [deleteTaskById, hparse, deleteOne_not_found hnone]

/-- Witness for C7: deleting the sample task twice — the first delete
succeeds with 200, so the second hits the already-deleted case and
yields 404. -/
theorem deleteTaskById_cases_witness :
    (deleteTaskById (deleteTaskById sampleDB (oidToString 5)).2 (oidToString 5)).1 =
      ⟨404, ResBody.errorMsg ("Task with ID " ++ oidToString 5 ++ " not found")⟩ :=
  (deleteTaskById_cases sampleDB (oidToString 5) 5 rfl).2.2 (by decide)

end TaskManager
